import Mathlib

/-
Verification of the custom model client adapter from
notebook/gemini_custom_model_client.ipynb.

The notebook defines a `CustomModelClient` class implementing the autogen
model-client protocol over the litellm `completion` call:

  class CustomModelClient:
      def __init__(self, config) -> None:
          self.model = config.get("model", "gemini/gemini-pro")
      def create(self, params) -> ModelClientResponseProtocol:
          response = completion(model=self.model, messages=params["messages"])
          return response
      def message_retrieval(self, response):
          choices = response.choices
          return [choice.message.content for choice in choices]
      def cost(self, response) -> float:
          return 0
      @staticmethod
      def get_usage(response) -> Dict:
          return dict(response.usage)

We embed this shallowly: provider responses are records, the external
`completion` call is a function parameter, fallible attribute/key access
becomes `Except`, and `create` additionally returns the trace of provider
invocations it performed (a list of (model, messages) pairs), so that
call-count properties can be stated.
-/

namespace Autogen

/-- A message inside a provider response choice: `content` is optional
(the provider may return no text). Mirrors the notebook's
`ModelClientResponseProtocol.Choice.Message`. -/
structure Message where
  content : Option String
deriving DecidableEq, Repr

/-- One candidate reply in a response. `message` is `none` when the choice
object lacks the `message` attribute (a contract violation: in Python,
accessing `.message` on such an object raises `AttributeError`). -/
structure Choice where
  message : Option Message
deriving DecidableEq, Repr

/-- A provider response as the notebook's protocol exposes it: a model
identifier, an ordered list of choices, and the provider's usage data
modelled as a finite key-value mapping (Python `response.usage`; `dict`
conversion is the identity on such a mapping). -/
structure Response where
  model : String
  choices : List Choice
  usage : List (String × Int)
deriving DecidableEq, Repr

/-- A conversation message handed to `create` inside `params["messages"]`. -/
structure ChatMessage where
  role : String
  content : Option String
deriving DecidableEq, Repr

/-- The `params` mapping passed to `create`. `messages = none` models a
mapping without the "messages" key, on which `params["messages"]` raises
`KeyError`. -/
structure Params where
  messages : Option (List ChatMessage)
deriving DecidableEq, Repr

/-- An adapter configuration entry, as in the notebook's
`config_list_custom`: an optional "model" key, an optional
"model_client_cls" key, and opaque provider-specific extra fields. -/
structure Config where
  model : Option String
  model_client_cls : Option String
  extra : List (String × String)
deriving DecidableEq, Repr

/-- Errors surfaced by the adapter layer. -/
inductive AdapterError
  | configurationError (ident : String)
  | keyError (key : String)
  | attributeError (field : String)
  | providerError (msg : String)
deriving DecidableEq, Repr

/-- The adapter's state after construction. The notebook's `__init__` body
is the single line `self.model = config.get("model", "gemini/gemini-pro")`,
so the state is exactly the bound model identifier. -/
structure CustomModelClient where
  model : String
deriving DecidableEq, Repr

/-- Embedding of `CustomModelClient.__init__`:
`self.model = config.get("model", "gemini/gemini-pro")`. A pure function of
the configuration; it takes no provider and performs no provider call. -/
def CustomModelClient.init (config : Config) : CustomModelClient :=
  { model := config.model.getD "gemini/gemini-pro" }

/-- Embedding of `CustomModelClient.create`:

    response = completion(model=self.model, messages=params["messages"])
    return response

The external litellm `completion` call is the function parameter
`completion` (it may fail, modelling provider errors, which propagate).
The second component of the result is the trace of provider invocations
performed, each recorded as the (model, messages) pair passed to
`completion`. A missing "messages" key raises `KeyError` before any
provider call. -/
def CustomModelClient.create
    (completion : String → List ChatMessage → Except AdapterError Response)
    (self : CustomModelClient) (params : Params) :
    Except AdapterError Response × List (String × List ChatMessage) :=
  match params.messages with
  | some msgs => (completion self.model msgs, [(self.model, msgs)])
  | none => (Except.error (AdapterError.keyError "messages"), [])

/-- Embedding of `CustomModelClient.message_retrieval`:

    choices = response.choices
    return [choice.message.content for choice in choices]

Accessing `choice.message` on a choice lacking the attribute raises
`AttributeError`, which the `Except` bind of `mapM` propagates. -/
def CustomModelClient.message_retrieval (response : Response) :
    Except AdapterError (List (Option String)) :=
  response.choices.mapM fun choice =>
    match choice.message with
    | some m => Except.ok m.content
    | none => Except.error (AdapterError.attributeError "message")

/-- Embedding of `CustomModelClient.cost`: `return 0`. -/
def CustomModelClient.cost (_response : Response) : Int := 0

/-- Embedding of `CustomModelClient.get_usage`: `return dict(response.usage)`.
With usage modelled as a finite key-value mapping, the `dict` conversion is
the identity: the result holds exactly the keys the provider reported. -/
def CustomModelClient.get_usage (response : Response) : List (String × Int) :=
  response.usage

/-- Modelled from the spec: the Client Registry (spec §4.3) is implemented
by the autogen library (`register_model_client` and the resolution done by
`OpenAIWrapper`), whose source is not included here; only its caller
appears in the notebook. A registry maps a symbolic adapter class
identifier to a constructible adapter type. -/
def register (registry : List (String × (Config → CustomModelClient)))
    (ident : String) (ctor : Config → CustomModelClient) :
    List (String × (Config → CustomModelClient)) :=
  (ident, ctor) :: registry

/-- Modelled from the spec: resolution (spec §4.3) looks up the entry's
adapter class identifier in the registry and constructs the adapter with
the entry as configuration; an unregistered identifier is a configuration
error. -/
def resolve (registry : List (String × (Config → CustomModelClient)))
    (entry : Config) : Except AdapterError CustomModelClient :=
  match entry.model_client_cls with
  | none => Except.error (AdapterError.configurationError "model_client_cls")
  | some ident =>
    match registry.lookup ident with
    | some ctor => Except.ok (ctor entry)
    | none => Except.error (AdapterError.configurationError ident)

/-- Modelled from the spec: eager validation (spec §4.3) of an agent's
configuration list at registration/validation time resolves every entry,
reporting a configuration error before any generation is attempted. It
takes no provider, so it can perform no generate call. -/
def validateConfigList (registry : List (String × (Config → CustomModelClient))) :
    List Config → Except AdapterError Unit
  | [] => Except.ok ()
  | entry :: rest =>
    match resolve registry entry with
    | Except.error e => Except.error e
    | Except.ok _ => validateConfigList registry rest

/-- Modelled from the spec: a turn first resolves the agent's adapter via
the registry and only then invokes `generate` (spec §2 data flow, §4.3);
when resolution fails the configuration error is reported and no provider
call occurs, so the invocation trace is empty. -/
def resolveThenGenerate (registry : List (String × (Config → CustomModelClient)))
    (entry : Config)
    (completion : String → List ChatMessage → Except AdapterError Response)
    (params : Params) :
    Except AdapterError Response × List (String × List ChatMessage) :=
  match resolve registry entry with
  | Except.error e => (Except.error e, [])
  | Except.ok client => client.create completion params

/-- Concrete choices list used as a witness input: one textual reply and
one reply with null content. -/
def demoChoices : List Choice :=
  [{ message := some { content := some "hello" } },
   { message := some { content := none } }]

/-- Concrete well-formed response used as a witness input. -/
def demoResponse : Response :=
  { model := "gemini/gemini-pro", choices := demoChoices,
    usage := [("prompt_tokens", 5), ("completion_tokens", 2), ("total_tokens", 7)] }

/-- Concrete response whose choices list is empty. -/
def emptyChoicesResponse : Response :=
  { model := "gemini/gemini-pro", choices := [], usage := [] }

/-- Concrete response whose provider reported no usage fields at all. -/
def noUsageResponse : Response :=
  { model := "gemini/gemini-pro",
    choices := [{ message := some { content := some "hi" } }], usage := [] }

/-- Concrete response with a choice lacking its message attribute. -/
def badChoiceResponse : Response :=
  { model := "gemini/gemini-pro", choices := [{ message := none }], usage := [] }

/-- Concrete conversation messages used as a witness input. -/
def demoMessages : List ChatMessage :=
  [{ role := "user", content := some "Write python code to print Hello World!" }]

/-- Concrete params mapping carrying the "messages" key. -/
def demoParams : Params := { messages := some demoMessages }

/-- Concrete params mapping lacking the "messages" key. -/
def noMessagesParams : Params := { messages := none }

/-- Concrete adapter instance bound to the fallback model. -/
def demoClient : CustomModelClient := { model := "gemini/gemini-pro" }

/-- Concrete provider function that succeeds. -/
def okCompletion : String → List ChatMessage → Except AdapterError Response :=
  fun m _ => Except.ok { model := m, choices := demoChoices, usage := [] }

/-- Concrete provider function that fails, modelling an unreachable
provider. -/
def failCompletion : String → List ChatMessage → Except AdapterError Response :=
  fun _ _ => Except.error (AdapterError.providerError "APIConnectionError")

/-- Concrete configuration entry mirroring the notebook's
`config_list_custom` element. -/
def demoConfig : Config :=
  { model := some "gemini/gemini-pro",
    model_client_cls := some "CustomModelClient", extra := [] }

/-- C5: `__init__` stores as the adapter's bound model identifier the
configuration's "model" value when present, and the fallback
"gemini/gemini-pro" when absent. The embedding of `__init__` is a pure
function of the configuration taking no provider, so no network call
occurs. -/
theorem init_resolves_model (c : Config) :
    (CustomModelClient.init c).model =
      match c.model with
      | some m => m
      | none => "gemini/gemini-pro" := by
  cases h : c.model <;> simp [CustomModelClient.init, h]

/-- C6 counterexample: two configurations differing only in their
provider-specific extra fields construct identical adapters, so the extra
fields are not retained after construction. -/
theorem init_discards_extras :
    CustomModelClient.init
        { model := some "gemini/gemini-pro",
          model_client_cls := some "CustomModelClient",
          extra := [("api_key", "secret"), ("temperature", "0.7")] }
      = CustomModelClient.init
        { model := some "gemini/gemini-pro",
          model_client_cls := some "CustomModelClient", extra := [] } := rfl

/-- C6 (amended): `__init__` stores only the resolved model identifier on
the adapter; provider-specific extra fields of the configuration are not
stored and are not retained after construction. -/
theorem init_stores_only_model (c : Config) :
    CustomModelClient.init c = { model := c.model.getD "gemini/gemini-pro" } := rfl

/-- C7: `cost` returns a non-negative number, namely 0, for every
response: the demonstrated adapter cannot price a response and returns 0
rather than failing. -/
theorem cost_zero_and_nonneg (r : Response) :
    CustomModelClient.cost r = 0 ∧ 0 ≤ CustomModelClient.cost r :=
  ⟨rfl, le_refl 0⟩

/-- C4: when the params mapping contains the "messages" key, `create`
invokes the provider exactly with the adapter's stored model identifier
and the supplied messages unchanged (the invocation trace is that single
pair), and returns the provider's response as the call's result. -/
theorem create_calls_provider_with_bound_model
    (completion : String → List ChatMessage → Except AdapterError Response)
    (self : CustomModelClient) (params : Params) (msgs : List ChatMessage)
    (h : params.messages = some msgs) :
    self.create completion params
      = (completion self.model msgs, [(self.model, msgs)]) := by
  simp [CustomModelClient.create, h]

/-- C4 witness: at the concrete client, params and provider, `create`
returns the provider's response for the bound model and the supplied
messages unchanged. -/
theorem create_calls_provider_with_bound_model_witness :
    demoClient.create okCompletion demoParams
      = (okCompletion demoClient.model demoMessages,
         [(demoClient.model, demoMessages)]) :=
  create_calls_provider_with_bound_model okCompletion demoClient demoParams
    demoMessages rfl

/-- C8: for every invocation of `create` whose params carry the "messages"
key, exactly one provider call is made — the invocation trace has length
one — and the call's result is exactly what that single provider call
returned, so a provider error propagates with no internal retry. -/
theorem create_exactly_one_call_no_retry
    (completion : String → List ChatMessage → Except AdapterError Response)
    (self : CustomModelClient) (params : Params) (msgs : List ChatMessage)
    (h : params.messages = some msgs) :
    (self.create completion params).2.length = 1 ∧
    (self.create completion params).1 = completion self.model msgs := by
  simp [CustomModelClient.create, h]

/-- C8 witness: with a provider that fails, `create` still performs
exactly one provider call and forwards the provider error. -/
theorem create_exactly_one_call_no_retry_witness :
    (demoClient.create failCompletion demoParams).2.length = 1 ∧
    (demoClient.create failCompletion demoParams).1
      = failCompletion demoClient.model demoMessages :=
  create_exactly_one_call_no_retry failCompletion demoClient demoParams
    demoMessages rfl

/-- C10: when the params mapping lacks the "messages" key, `create` fails
with a key-lookup error and the provider-invocation trace is empty: no
provider call is made. -/
theorem create_missing_messages_key_error
    (completion : String → List ChatMessage → Except AdapterError Response)
    (self : CustomModelClient) (params : Params)
    (h : params.messages = none) :
    self.create completion params
      = (Except.error (AdapterError.keyError "messages"), []) := by
  simp [CustomModelClient.create, h]

/-- C10 witness: at the concrete params lacking "messages", `create`
raises the key error and performs no provider call. -/
theorem create_missing_messages_key_error_witness :
    demoClient.create okCompletion noMessagesParams
      = (Except.error (AdapterError.keyError "messages"), []) :=
  create_missing_messages_key_error okCompletion demoClient noMessagesParams rfl

/-- C2: `get_usage` returns `dict(response.usage)` verbatim; at a response
whose provider reported no usage fields, the result contains none of the
five required keys, contradicting the class docstring that promises
prompt_tokens, completion_tokens, total_tokens, cost and model are always
present. -/
theorem get_usage_omits_required_keys :
    CustomModelClient.get_usage noUsageResponse = [] ∧
    (CustomModelClient.get_usage noUsageResponse).lookup "prompt_tokens" = none ∧
    (CustomModelClient.get_usage noUsageResponse).lookup "completion_tokens" = none ∧
    (CustomModelClient.get_usage noUsageResponse).lookup "total_tokens" = none ∧
    (CustomModelClient.get_usage noUsageResponse).lookup "cost" = none ∧
    (CustomModelClient.get_usage noUsageResponse).lookup "model" = none :=
  ⟨rfl, rfl, rfl, rfl, rfl, rfl⟩

/-- Helper: on a response all of whose choices carry a message,
`message_retrieval` succeeds with the pointwise list of message contents. -/
theorem message_retrieval_eq_map (mdl : String) (l : List Choice)
    (u : List (String × Int)) (h : ∀ c ∈ l, c.message.isSome) :
    CustomModelClient.message_retrieval { model := mdl, choices := l, usage := u }
      = Except.ok (l.map fun c => (c.message.getD { content := none }).content) := by
  simp only [CustomModelClient.message_retrieval, ← List.mapM'_eq_mapM]
  induction l with
  | nil => rfl
  | cons c cs ih =>
    obtain ⟨m, hm⟩ := Option.isSome_iff_exists.mp (h c (List.mem_cons_self c cs))
    have ht := ih (fun x hx => h x (List.mem_cons_of_mem c hx))
    simp only [List.mapM'_cons, ht, hm, List.map_cons]
    rfl

/-- Helper: a choice lacking its message attribute makes
`message_retrieval` fail with the attribute error. -/
theorem message_retrieval_error_of_missing (mdl : String) (l : List Choice)
    (u : List (String × Int)) (h : ∃ c ∈ l, c.message = none) :
    CustomModelClient.message_retrieval { model := mdl, choices := l, usage := u }
      = Except.error (AdapterError.attributeError "message") := by
  simp only [CustomModelClient.message_retrieval, ← List.mapM'_eq_mapM]
  induction l with
  | nil => simp at h
  | cons c cs ih =>
    obtain ⟨x, hx, hxnone⟩ := h
    rcases List.mem_cons.mp hx with hxc | hxcs
    · subst hxc
      simp only [List.mapM'_cons, hxnone]
      rfl
    · cases hm : c.message with
      | none =>
        simp only [List.mapM'_cons, hm]
        rfl
      | some m =>
        have ht := ih ⟨x, hxcs, hxnone⟩
        simp only [List.mapM'_cons, hm, ht]
        rfl

/-- C1: on every response whose choices all carry a message,
`message_retrieval` returns an ordered sequence of the same length as the
choices, whose i-th element is the i-th choice's message content (possibly
null): no entry is reordered or dropped. -/
theorem message_retrieval_positional (r : Response)
    (h : ∀ c ∈ r.choices, c.message.isSome) :
    ∃ l : List (Option String),
      CustomModelClient.message_retrieval r = Except.ok l ∧
      l.length = r.choices.length ∧
      ∀ i : Nat, ∀ hi : i < r.choices.length,
        l[i]? = some ((r.choices[i].message.getD { content := none }).content) := by
  obtain ⟨mdl, cs, u⟩ := r
  refine ⟨cs.map fun c => (c.message.getD { content := none }).content,
    message_retrieval_eq_map mdl cs u h, by simp, ?_⟩
  intro i hi
  simp only [List.getElem?_map]
  simp [List.getElem?_eq_getElem hi]

/-- C1 witness: at the concrete two-choice response, `message_retrieval`
returns the positionally aligned contents. -/
theorem message_retrieval_positional_witness :
    ∃ l : List (Option String),
      CustomModelClient.message_retrieval demoResponse = Except.ok l ∧
      l.length = demoResponse.choices.length ∧
      ∀ i : Nat, ∀ hi : i < demoResponse.choices.length,
        l[i]? = some ((demoResponse.choices[i].message.getD { content := none }).content) :=
  message_retrieval_positional demoResponse (by decide)

/-- C3 counterexample: on the response with an empty choices sequence —
a normalizer-contract violation — `message_retrieval` does not fail: it
silently returns the empty sequence. -/
theorem message_retrieval_empty_choices_silent :
    emptyChoicesResponse.choices = [] ∧
    CustomModelClient.message_retrieval emptyChoicesResponse = Except.ok [] :=
  ⟨rfl, rfl⟩

/-- C3 (amended): a response containing a choice that lacks its message
makes `message_retrieval` fail loudly with a hard error, but a response
whose choices sequence is empty yields the empty sequence silently, with
no error raised. -/
theorem message_retrieval_loud_only_on_missing_message (r : Response) :
    (r.choices = [] → CustomModelClient.message_retrieval r = Except.ok []) ∧
    ((∃ c ∈ r.choices, c.message = none) →
      CustomModelClient.message_retrieval r
        = Except.error (AdapterError.attributeError "message")) := by
  obtain ⟨mdl, cs, u⟩ := r
  constructor
  · intro hnil
    simp only at hnil
    subst hnil
    rfl
  · intro h
    exact message_retrieval_error_of_missing mdl cs u h

/-- C3 (amended) witness: the empty-choices response yields the empty
sequence, and the response with a message-less choice yields the hard
error. -/
theorem message_retrieval_loud_only_on_missing_message_witness :
    CustomModelClient.message_retrieval emptyChoicesResponse = Except.ok [] ∧
    CustomModelClient.message_retrieval badChoiceResponse
      = Except.error (AdapterError.attributeError "message") :=
  ⟨(message_retrieval_loud_only_on_missing_message emptyChoicesResponse).1 rfl,
   (message_retrieval_loud_only_on_missing_message badChoiceResponse).2
     ⟨{ message := none }, by decide, rfl⟩⟩

/-- C9: resolving a configuration entry whose adapter class identifier is
not registered yields a configuration error, reported by eager validation
of the configuration list at registration/validation time — which takes no
provider and so performs no generate call — and a turn attempted with that
entry reports the same configuration error with an empty
provider-invocation trace: no generate call is attempted. -/
theorem unregistered_adapter_configuration_error
    (registry : List (String × (Config → CustomModelClient)))
    (entry : Config) (ident : String)
    (completion : String → List ChatMessage → Except AdapterError Response)
    (params : Params)
    (h1 : entry.model_client_cls = some ident)
    (h2 : registry.lookup ident = none) :
    validateConfigList registry [entry]
        = Except.error (AdapterError.configurationError ident) ∧
    resolveThenGenerate registry entry completion params
        = (Except.error (AdapterError.configurationError ident), []) := by
  have hres : resolve registry entry
      = Except.error (AdapterError.configurationError ident) := by
    simp [resolve, h1, h2]
  exact ⟨by simp [validateConfigList, hres], by simp [resolveThenGenerate, hres]⟩

/-- C9 witness: with an empty registry, the notebook's configuration entry
naming "CustomModelClient" fails validation with a configuration error and
a turn with it performs no provider call. -/
theorem unregistered_adapter_configuration_error_witness :
    validateConfigList [] [demoConfig]
        = Except.error (AdapterError.configurationError "CustomModelClient") ∧
    resolveThenGenerate [] demoConfig okCompletion demoParams
        = (Except.error (AdapterError.configurationError "CustomModelClient"), []) :=
  unregistered_adapter_configuration_error [] demoConfig "CustomModelClient"
    okCompletion demoParams rfl rfl

end Autogen
